import Mathlib

/-!
Shallow embedding of `chat.py` (Snowflake MCP client with OAuth 2.0):
the OAuth callback listener (`OAuthCallbackHandler`), the authenticate
token-exchange step, and the stateful JSON-RPC session operations
(`initialize_mcp_session`, `discover_tools`, `call_tool`) of
`SnowflakeMCPClient`.  HTTP transport is modelled by passing the server's
response (status code plus parsed JSON body) explicitly; each operation is
a pure function from the client state and the response to an outcome and a
new client state.  Python exceptions become an explicit error type whose
constructors correspond one-to-one to the raise sites of the source.
-/

/-- A JSON value, as produced by `response.json()` in the source. -/
inductive Json where
  | null
  | bool (b : Bool)
  | num (n : Int)
  | str (s : String)
  | arr (xs : List Json)
  | obj (fields : List (String × Json))
deriving Repr

/-- First value bound to key `k` in a JSON object (Python `d[k]` / `k in d`
on a dict preserves insertion order; duplicate keys cannot arise from
`json` parsing, so first-match is faithful).  `none` on a non-object or a
missing key, where Python raises `KeyError`/`TypeError`. -/
def Json.getObjVal : Json → String → Option Json
  | .obj fields, k => (fields.find? (fun p => p.1 == k)).map (fun p => p.2)
  | _, _ => none

/-- Python `"k" in result` for a parsed JSON object body. -/
def Json.hasKey (j : Json) (k : String) : Bool :=
  (j.getObjVal k).isSome

/-- Python `str` rendering used by f-strings, as far as the model needs it. -/
def Json.pyStr : Json → String
  | .null => "None"
  | .bool true => "True"
  | .bool false => "False"
  | .num n => toString n
  | .str s => s
  | .arr _ => "<list>"
  | .obj _ => "<dict>"

/-- Python `str(x)` where `x : Option Json` models a variable that may hold
`None` (e.g. `self.access_token` before authentication). -/
def pyOptStr : Option Json → String
  | none => "None"
  | some j => j.pyStr

/-- An HTTP response as the client observes it: status code and the JSON
body `response.json()` yields.  (All claims concern JSON bodies, so the
body is given already parsed.) -/
structure HttpResponse where
  status : Nat
  body : Json
deriving Repr

/-- The environment variables `SnowflakeMCPClient.__init__` reads via
`os.getenv`; `none` models an unset variable. -/
structure Env where
  account : Option String
  oauth_client_id : Option String
  oauth_client_secret : Option String
  database : Option String
  schemaName : Option String
  mcp_server_name : Option String
  role : Option String
deriving Repr, DecidableEq

/-- The mutable attributes of `SnowflakeMCPClient` that the modelled
operations read or write.  `session_id` is the request-id counter the spec
calls `next_id`; `tools` is the capability registry. -/
structure ClientState where
  account : Option String
  database : String
  schemaName : String
  mcp_server_name : String
  role : String
  base_url : Option String
  access_token : Option Json
  session_id : Nat
  tools : Json
deriving Repr

/-- `SnowflakeMCPClient.__init__` (chat.py:71-86): reads configuration from
the environment with the source's defaults, sets `access_token = None`,
`base_url = None`, `session_id = 0`, `tools = []`. -/
def clientInit (env : Env) : ClientState :=
  { account := env.account
    database := env.database.getD "SALES_INTELLIGENCE"
    schemaName := env.schemaName.getD "DATA"
    mcp_server_name := env.mcp_server_name.getD "SALES_INTELLIGENCE_MCP"
    role := env.role.getD "ACCOUNTADMIN"
    base_url := none
    access_token := none
    session_id := 0
    tools := .arr [] }

/-- Python `str(self.account)` inside the f-string (an unset env var
renders as `None`). -/
def optAccountStr : Option String → String
  | none => "None"
  | some s => s

/-- `SnowflakeMCPClient.setup_connection` (chat.py:88-95): builds the MCP
server URL from account, database, schema and server name. -/
def setup_connection (st : ClientState) : ClientState :=
  let url := "https://" ++ optAccountStr st.account
      ++ ".snowflakecomputing.com/api/v2/databases/" ++ st.database
      ++ "/schemas/" ++ st.schemaName ++ "/mcp-servers/" ++ st.mcp_server_name
  { st with base_url := some url }

/-- Errors raised by the modelled operations.  Each constructor
corresponds to a raise site or an unguarded crashing expression of the
source; the names follow the spec's error taxonomy (section 7) where one
exists:
* `transportError` — `raise Exception(f"...failed: {status} - {text}")` on
  a non-200 status (chat.py:203, 249, 295);
* `rpcProtocolError` — `raise Exception(f"...Error: {result['error']}")` on
  an error-keyed body (chat.py:208, 254, 300);
* `lookupError` — a Python `KeyError` (missing key on a dict) or
  `TypeError` (a keyed lookup or `in` applied to an unsuitable value)
  escaping an unguarded expression, recorded with the key involved
  (chat.py:207, 212, 253, 256, 260-261, 299, 304);
* `attributeError` — a Python `AttributeError` (`.get` on a value that is
  not a dict) escaping the serverInfo print block (chat.py:215-220);
* `printError` — a Python `TypeError` escaping `len`, iteration or slicing
  in the discover print loop (chat.py:259-262);
* `authorizationDenied` — `raise Exception("Authorization code not
  received.")` (chat.py:130);
* `tokenExchangeFailed` — `raise Exception(f"Token exchange failed: ...")`
  (chat.py:155). -/
inductive PyError where
  | transportError (status : Nat) (body : Json)
  | rpcProtocolError (err : Json)
  | lookupError (key : String)
  | attributeError (attr : String)
  | printError
  | authorizationDenied
  | tokenExchangeFailed (status : Nat) (body : Json)
deriving Repr

/-- Whether a JSON value is an object (Python `isinstance(x, dict)`). -/
def Json.isObj : Json → Bool
  | .obj _ => true
  | _ => false

/-- Python equality of a JSON list element with a string: among
JSON-representable values only a string can equal a string. -/
def Json.eqStr : Json → String → Bool
  | .str s, k => s == k
  | _, _ => false

/-- Begins-with test on character lists (helper for the substring test). -/
def listStartsWith : List Char → List Char → Bool
  | [], _ => true
  | _ :: _, [] => false
  | a :: as, b :: bs => a == b && listStartsWith as bs

/-- Substring containment on character lists: Python `needle in haystack`
for strings. -/
def listContainsSub : List Char → List Char → Bool
  | needle, [] => needle.isEmpty
  | needle, c :: rest => listStartsWith needle (c :: rest) || listContainsSub needle rest

/-- Python `k in x` as the source applies it to parsed JSON
(chat.py:207, 212, 253, 299): key membership on a dict; element membership
on a list (only a string element can equal the string `k`); substring test
on a string; on a number, boolean or null the `in` itself raises a
TypeError, recorded as the unhandled lookup crash of that line. -/
def Json.pyContains : Json → String → Except PyError Bool
  | .obj fs, k => .ok ((Json.obj fs).getObjVal k).isSome
  | .arr xs, k => .ok (xs.any fun x => Json.eqStr x k)
  | .str s, k => .ok (listContainsSub k.data s.data)
  | .null, k => .error (.lookupError k)
  | .bool _, k => .error (.lookupError k)
  | .num _, k => .error (.lookupError k)

/-- Python `x[k]` with a string key (chat.py:208, 212, 254, 256, 300,
304): a dict lookup, `KeyError` when the key is missing; a TypeError on
any non-dict value — both recorded as the unhandled lookup crash carrying
`k`. -/
def Json.pySubscript : Json → String → Except PyError Json
  | .obj fs, k =>
    match (Json.obj fs).getObjVal k with
    | some v => .ok v
    | none => .error (.lookupError k)
  | .arr _, k => .error (.lookupError k)
  | .str _, k => .error (.lookupError k)
  | .null, k => .error (.lookupError k)
  | .bool _, k => .error (.lookupError k)
  | .num _, k => .error (.lookupError k)

/-- The error-envelope check shared by the three operations
(chat.py:207-208, 253-254, 299-300): `if "error" in result: raise
Exception(f"...: {result['error']}")`.  `some err` when an exception
escapes the check (the protocol error, or a crash of the check line
itself), `none` when the check passes. -/
def errorCheck (body : Json) : Option PyError :=
  match body.pyContains "error" with
  | .error e => some e
  | .ok false => none
  | .ok true =>
    match body.pySubscript "error" with
    | .ok v => some (.rpcProtocolError v)
    | .error e => some e

/-- The serverInfo print block of `initialize_mcp_session`
(chat.py:212-221): `if 'result' in result and isinstance(result['result'],
dict)`, then `server_info.get('name'/'version', 'unknown')` on the
`serverInfo` (or `server_info`) entry — `.get` exists only on a dict, so a
non-dict entry raises AttributeError, before the counter moves.  `some e`
when an exception escapes the block. -/
def serverInfoBlock (body : Json) : Option PyError :=
  match body.pyContains "result" with
  | .error e => some e
  | .ok false => none
  | .ok true =>
    match body.pySubscript "result" with
    | .error e => some e
    | .ok r =>
      if r.isObj then
        match r.getObjVal "serverInfo" with
        | some si => if si.isObj then none else some (.attributeError "get")
        | none =>
          match r.getObjVal "server_info" with
          | some si => if si.isObj then none else some (.attributeError "get")
          | none => none
      else none

/-- Python `len(x)` / `for y in x`: the iterated values — list elements,
dict keys (as strings), string characters (as one-character strings);
`none` (TypeError) otherwise. -/
def Json.pyIter : Json → Option (List Json)
  | .arr xs => some xs
  | .obj fs => some (fs.map fun p => Json.str p.1)
  | .str s => some (s.data.map fun c => Json.str (String.mk [c]))
  | .null => none
  | .bool _ => none
  | .num _ => none

/-- One body of the chat.py:260-262 print loop: `tool["name"]`, then
`tool["description"][:300]` — the slice works on a string or a list and is
a TypeError on anything else.  `some e` when an exception escapes. -/
def printToolBody (tool : Json) : Option PyError :=
  match tool.pySubscript "name" with
  | .error e => some e
  | .ok _ =>
    match tool.pySubscript "description" with
    | .error e => some e
    | .ok d =>
      match d with
      | .str _ => none
      | .arr _ => none
      | _ => some .printError

/-- The chat.py:259-262 print block over the freshly assigned `tools`:
`len(self.tools)` (a TypeError on an unsized value) and then the loop,
aborting at the first failing entry.  It runs after the assignment and the
increment, so its crash leaves the mutation in place. -/
def printToolsBlock (tools : Json) : Option PyError :=
  match tools.pyIter with
  | none => some .printError
  | some elems => elems.findSome? printToolBody

/-- The fixed headers every MCP request carries (chat.py:195-200, 240-245,
286-291). -/
def requestHeaders (st : ClientState) : List (String × String) :=
  [("Authorization", "Bearer " ++ pyOptStr st.access_token),
   ("Content-Type", "application/json"),
   ("X-Snowflake-Authorization-Token-Type", "OAUTH"),
   ("X-Snowflake-Role", st.role)]

/-- An outbound HTTP POST as the client composes it. -/
structure HttpRequest where
  url : Option String
  headers : List (String × String)
  body : Json
deriving Repr

/-- The JSON-RPC envelope `initialize_mcp_session` posts (chat.py:187-194). -/
def initializeEnvelope (st : ClientState) : Json :=
  .obj [("jsonrpc", .str "2.0"),
        ("id", .num st.session_id),
        ("method", .str "initialize"),
        ("params", .obj [("protocolVersion", .str "2025-06-18")])]

/-- The JSON-RPC envelope `discover_tools` posts (chat.py:234-239). -/
def discoverEnvelope (st : ClientState) : Json :=
  .obj [("jsonrpc", .str "2.0"),
        ("id", .num st.session_id),
        ("method", .str "tools/list"),
        ("params", .obj [])]

/-- The JSON-RPC envelope `call_tool` posts (chat.py:277-285). -/
def callToolEnvelope (st : ClientState) (tool_name : String) (arguments : Json) : Json :=
  .obj [("jsonrpc", .str "2.0"),
        ("id", .num st.session_id),
        ("method", .str "tools/call"),
        ("params", .obj [("name", .str tool_name), ("arguments", arguments)])]

/-- The full outbound request of `initialize_mcp_session` (chat.py:185-201). -/
def initializeRequest (st : ClientState) : HttpRequest :=
  { url := st.base_url, headers := requestHeaders st, body := initializeEnvelope st }

/-- The full outbound request of `discover_tools` (chat.py:232-246). -/
def discoverRequest (st : ClientState) : HttpRequest :=
  { url := st.base_url, headers := requestHeaders st, body := discoverEnvelope st }

/-- The full outbound request of `call_tool` (chat.py:275-292). -/
def callToolRequest (st : ClientState) (tool_name : String) (arguments : Json) : HttpRequest :=
  { url := st.base_url, headers := requestHeaders st,
    body := callToolEnvelope st tool_name arguments }

/-- Response handling of `initialize_mcp_session` (chat.py:202-225):
non-200 status raises the transport error; then the error-envelope check;
then the serverInfo print block, whose AttributeError aborts before the
increment; otherwise `session_id` is incremented and the full parsed body
is returned. -/
def initializeRespond (st : ClientState) (resp : HttpResponse) :
    Except PyError Json × ClientState :=
  if resp.status ≠ 200 then
    (.error (.transportError resp.status resp.body), st)
  else
    match errorCheck resp.body with
    | some e => (.error e, st)
    | none =>
      match serverInfoBlock resp.body with
      | some e => (.error e, st)
      | none => (.ok resp.body, { st with session_id := st.session_id + 1 })

/-- Response handling of `discover_tools` (chat.py:248-267): non-200
status raises; then the error-envelope check; then `self.tools =
result["result"]["tools"]` — the unguarded double subscript aborts before
any state changes — then the increment, and finally the print loop over
the new registry, whose crash on a malformed tools payload comes after the
mutation. -/
def discoverRespond (st : ClientState) (resp : HttpResponse) :
    Except PyError Json × ClientState :=
  if resp.status ≠ 200 then
    (.error (.transportError resp.status resp.body), st)
  else
    match errorCheck resp.body with
    | some e => (.error e, st)
    | none =>
      match resp.body.pySubscript "result" with
      | .error e => (.error e, st)
      | .ok r =>
        match r.pySubscript "tools" with
        | .error e => (.error e, st)
        | .ok ts =>
          let st' := { st with tools := ts, session_id := st.session_id + 1 }
          match printToolsBlock ts with
          | some e => (.error e, st')
          | none => (.ok ts, st')

/-- Response handling of `call_tool` (chat.py:294-304): non-200 status
raises; then the error-envelope check (before the counter moves); then
`session_id` is incremented and `result["result"]` is returned — that
subscript is unguarded, so its crash comes only after the increment. -/
def callToolRespond (st : ClientState) (resp : HttpResponse) :
    Except PyError Json × ClientState :=
  if resp.status ≠ 200 then
    (.error (.transportError resp.status resp.body), st)
  else
    match errorCheck resp.body with
    | some e => (.error e, st)
    | none =>
      let st' := { st with session_id := st.session_id + 1 }
      match resp.body.pySubscript "result" with
      | .ok r => (.ok r, st')
      | .error e => (.error e, st')

/-- The token-exchange step of `authenticate` (chat.py:154-157): a non-200
status raises; otherwise `self.access_token =
token_data.get("access_token")` — `dict.get` yields `None` when the key is
absent, and the flow proceeds with that value unconditionally. -/
def tokenExchangeStep (st : ClientState) (resp : HttpResponse) :
    Except PyError ClientState :=
  if resp.status ≠ 200 then
    .error (.tokenExchangeFailed resp.status resp.body)
  else
    .ok { st with access_token := resp.body.getObjVal "access_token" }

/-- The character `=` (spelled by code point to keep characters out of
syntax-sensitive positions). -/
def chr61 : Char := Char.ofNat 61

/-- The character `&`. -/
def chr38 : Char := Char.ofNat 38

/-- Python `str.split(sep)` on a list of characters: structurally
recursive so that concrete queries evaluate. `splitOnChar sep "a&&b"`
gives `["a", "", "b"]`, and `""` gives `[""]`, as in Python. -/
def splitOnChar (sep : Char) : List Char → List (List Char)
  | [] => [[]]
  | c :: cs =>
    match splitOnChar sep cs with
    | [] => [[c]]
    | g :: gs => if c = sep then [] :: g :: gs else (c :: g) :: gs

/-- One `key=value` field of a query string, as `urllib.parse.parse_qsl`
treats it with default options: a field without `=` is skipped, a field
whose value is empty is skipped (`keep_blank_values=False`), the key is
everything before the first `=` and the value everything after it.
(Percent-decoding is outside the model: codes are treated as opaque
strings.) -/
def parseField (field : List Char) : Option (String × String) :=
  match field.dropWhile (fun c => c ≠ chr61) with
  | [] => none
  | _ :: v =>
    if v.isEmpty then none
    else some (⟨field.takeWhile (fun c => c ≠ chr61)⟩, ⟨v⟩)

/-- `urllib.parse.parse_qs` on a raw query string, flattened to the ordered
list of (key, value) pairs: split on `&`, parse each field, drop blanks.
`query_components['code'][0]` in the source is the first value bound to
`code` in this list. -/
def parseQs (query : String) : List (String × String) :=
  (splitOnChar chr38 query.data).filterMap parseField

/-- First value bound to `k` in a parsed query, i.e. Python
`query_components[k][0]` guarded by `k in query_components`. -/
def queryParam (query : String) (k : String) : Option String :=
  ((parseQs query).find? (fun p => p.1 == k)).map (fun p => p.2)

/-- Outcome of the listener handling its single request: the (class-level)
`authorization_code` slot after the request, and the HTTP status of the
response sent to the browser. -/
structure CallbackOutcome where
  slot : Option String
  httpStatus : Nat
deriving Repr, DecidableEq

/-- `OAuthCallbackHandler.do_GET` (chat.py:28-61): if the request's query
string has a `code` parameter, store its first value in the class-level
`OAuthCallbackHandler.authorization_code` slot and respond 200; otherwise
leave the slot as it was (it is never cleared) and respond 400.  `slot` is
the value of the class attribute before the request (`None` in a fresh
process). -/
def do_GET (slot : Option String) (query : String) : CallbackOutcome :=
  match queryParam query "code" with
  | some c => { slot := some c, httpStatus := 200 }
  | none => { slot := slot, httpStatus := 400 }

/-- The capture stage of `SnowflakeMCPClient.authenticate` (chat.py:123-132):
serve the single callback request, then read
`OAuthCallbackHandler.authorization_code`; `if not authorization_code`
(falsy: `None` or the empty string) raise, else proceed with the code. -/
def awaitAuthorizationCode (slot : Option String) (query : String) :
    CallbackOutcome × Except PyError String :=
  let outcome := do_GET slot query
  match outcome.slot with
  | none => (outcome, .error .authorizationDenied)
  | some c => if c = "" then (outcome, .error .authorizationDenied) else (outcome, .ok c)

/-- A field `parseField` keeps never has an empty value (blank values are
dropped, as `parse_qs` does by default). -/
theorem parseField_value_ne_empty (field : List Char) (p : String × String)
    (hp : parseField field = some p) : p.2 ≠ "" := by
  unfold parseField at hp
  rcases hdrop : field.dropWhile (fun c => c ≠ chr61) with _ | ⟨c, v⟩ <;>
    rw [hdrop] at hp
  · exact absurd hp (by simp)
  · dsimp only at hp
    by_cases hv : v.isEmpty
    · rw [if_pos hv] at hp
      exact absurd hp (by simp)
    · rw [if_neg hv] at hp
      cases hp
      intro h
      apply hv
      have hdata : v = [] := by simpa using congrArg String.data h
      simp [hdata]

/-- Every value `parseQs` yields is nonempty. -/
theorem parseQs_value_ne_empty (query : String) (p : String × String)
    (hp : p ∈ parseQs query) : p.2 ≠ "" := by
  rcases List.mem_filterMap.mp hp with ⟨f, _, hf⟩
  exact parseField_value_ne_empty f p hf

/-- A captured `code` value is never the empty string. -/
theorem queryParam_code_ne_empty (query : String) (c : String)
    (hc : queryParam query "code" = some c) : c ≠ "" := by
  unfold queryParam at hc
  rcases hfind : (parseQs query).find? (fun p => p.1 == "code") with _ | p <;>
    rw [hfind] at hc
  · exact absurd hc (by simp)
  · cases hc
    exact parseQs_value_ne_empty query p (List.mem_of_find?_eq_some hfind)

/-- A JSON value with some key bound is an object. -/
theorem exists_obj_of_getObjVal_some {j : Json} {k : String} {v : Json}
    (h : j.getObjVal k = some v) : ∃ fs, j = Json.obj fs := by
  cases j with
  | obj fs => exact ⟨fs, rfl⟩
  | null => exact absurd h (by simp [Json.getObjVal])
  | bool b => exact absurd h (by simp [Json.getObjVal])
  | num n => exact absurd h (by simp [Json.getObjVal])
  | str s => exact absurd h (by simp [Json.getObjVal])
  | arr xs => exact absurd h (by simp [Json.getObjVal])

/-- A present key makes the Python subscript succeed with its value. -/
theorem pySubscript_some (j : Json) (k : String) (v : Json)
    (h : j.getObjVal k = some v) : j.pySubscript k = .ok v := by
  obtain ⟨fs, rfl⟩ := exists_obj_of_getObjVal_some h
  simp [Json.pySubscript, h]

/-- An absent key (or a non-object operand) makes the Python subscript
crash with the lookup error carrying that key. -/
theorem pySubscript_none (j : Json) (k : String)
    (h : j.getObjVal k = none) : j.pySubscript k = .error (.lookupError k) := by
  cases j with
  | obj fs => simp [Json.pySubscript, h]
  | null => rfl
  | bool b => rfl
  | num n => rfl
  | str s => rfl
  | arr xs => rfl

/-- A body with a top-level `error` key makes the error check raise the
protocol error with that key's value. -/
theorem errorCheck_protocol (j e : Json) (h : j.getObjVal "error" = some e) :
    errorCheck j = some (.rpcProtocolError e) := by
  obtain ⟨fs, rfl⟩ := exists_obj_of_getObjVal_some h
  simp [errorCheck, Json.pyContains, Json.pySubscript, h]

/-- On an object body without an `error` key the error check passes. -/
theorem errorCheck_none_obj (fs : List (String × Json))
    (h : (Json.obj fs).getObjVal "error" = none) :
    errorCheck (Json.obj fs) = none := by
  simp [errorCheck, Json.pyContains, h]

/-- On any body without an `error` key the error check either passes or
crashes with the lookup error of its own line (the non-dict `in`/subscript
TypeErrors). -/
theorem errorCheck_cases (j : Json) (h : j.getObjVal "error" = none) :
    errorCheck j = none ∨ errorCheck j = some (.lookupError "error") := by
  cases j with
  | obj fs => exact Or.inl (errorCheck_none_obj fs h)
  | null => exact Or.inr rfl
  | bool b => exact Or.inr rfl
  | num n => exact Or.inr rfl
  | arr xs =>
    cases hb : xs.any fun x => Json.eqStr x "error" with
    | false => exact Or.inl (by simp [errorCheck, Json.pyContains, hb])
    | true => exact Or.inr (by simp [errorCheck, Json.pyContains, Json.pySubscript, hb])
  | str t =>
    cases hb : listContainsSub ("error").data t.data with
    | false => exact Or.inl (by simp [errorCheck, Json.pyContains, hb])
    | true => exact Or.inr (by simp [errorCheck, Json.pyContains, Json.pySubscript, hb])

/-- A returning (non-raising) initialize call yields the full parsed body
and exactly increments the counter. -/
theorem initializeRespond_ok_inv (st : ClientState) (resp : HttpResponse) (v : Json)
    (h : (initializeRespond st resp).1 = .ok v) :
    v = resp.body ∧
    (initializeRespond st resp).2 = { st with session_id := st.session_id + 1 } := by
  by_cases h200 : resp.status = 200
  · rcases hec : errorCheck resp.body with _ | e
    · rcases hsb : serverInfoBlock resp.body with _ | e2
      · constructor
        · have hv := h
          simp [initializeRespond, h200, hec, hsb] at hv
          exact hv.symm
        · simp [initializeRespond, h200, hec, hsb]
      · simp [initializeRespond, h200, hec, hsb] at h
    · simp [initializeRespond, h200, hec] at h
  · simp [initializeRespond, h200] at h

/-- Past the error check, `call_tool` increments the counter whether or not
the final `result` lookup succeeds; in particular a returning call did. -/
theorem callToolRespond_ok_inv (st : ClientState) (resp : HttpResponse) (v : Json)
    (h : (callToolRespond st resp).1 = .ok v) :
    (callToolRespond st resp).2 = { st with session_id := st.session_id + 1 } := by
  by_cases h200 : resp.status = 200
  · rcases hec : errorCheck resp.body with _ | e
    · cases hres : resp.body.pySubscript "result" with
      | error e2 => simp [callToolRespond, h200, hec, hres]
      | ok r => simp [callToolRespond, h200, hec, hres]
    · simp [callToolRespond, h200, hec] at h
  · simp [callToolRespond, h200] at h

/-- A returning discover call stored the served tools list verbatim and
incremented the counter. -/
theorem discoverRespond_ok_inv (st : ClientState) (resp : HttpResponse) (v : Json)
    (h : (discoverRespond st resp).1 = .ok v) :
    (discoverRespond st resp).2 = { st with tools := v, session_id := st.session_id + 1 } := by
  by_cases h200 : resp.status = 200
  · rcases hec : errorCheck resp.body with _ | e
    · cases hres : resp.body.pySubscript "result" with
      | error e2 => simp [discoverRespond, h200, hec, hres] at h
      | ok r =>
        cases hts : r.pySubscript "tools" with
        | error e3 => simp [discoverRespond, h200, hec, hres, hts] at h
        | ok ts =>
          rcases hpb : printToolsBlock ts with _ | e4
          · have hv : ts = v := by
              have hq := h
              simp [discoverRespond, h200, hec, hres, hts, hpb] at hq
              exact hq
            subst hv
            simp [discoverRespond, h200, hec, hres, hts, hpb]
          · simp [discoverRespond, h200, hec, hres, hts, hpb] at h
    · simp [discoverRespond, h200, hec] at h
  · simp [discoverRespond, h200] at h

/-- On a 200 response whose object body carries `result.tools`, discover
mutates the state to hold exactly the served list with the counter
incremented (whether or not the subsequent print loop survives). -/
theorem discoverRespond_success_state (st : ClientState) (resp : HttpResponse)
    (r ts : Json) (h200 : resp.status = 200)
    (herr : resp.body.getObjVal "error" = none)
    (hres : resp.body.getObjVal "result" = some r)
    (hts : r.getObjVal "tools" = some ts) :
    (discoverRespond st resp).2 = { st with tools := ts, session_id := st.session_id + 1 } := by
  have hec : errorCheck resp.body = none := by
    obtain ⟨fs, hfs⟩ := exists_obj_of_getObjVal_some hres
    rw [hfs] at herr
    rw [hfs]
    exact errorCheck_none_obj fs herr
  have h1 := pySubscript_some _ _ _ hres
  have h2 := pySubscript_some _ _ _ hts
  rcases hpb : printToolsBlock ts with _ | e <;>
    simp [discoverRespond, h200, hec, h1, h2, hpb]

/-- A concrete environment for witnesses: required variables set, optional
ones left to their defaults. -/
def demoEnv : Env :=
  { account := some "myaccount", oauth_client_id := some "client-id",
    oauth_client_secret := some "client-secret", database := none,
    schemaName := none, mcp_server_name := none, role := none }

/-- A client after `__init__` and `setup_connection`. -/
def demoClient : ClientState := setup_connection (clientInit demoEnv)

/-- The demo client after a successful token exchange. -/
def demoAuthed : ClientState := { demoClient with access_token := some (.str "tok123") }

/-- The demo client when `next_id` has reached 2 (after initialize and
discover). -/
def demoAtId2 : ClientState := { demoAuthed with session_id := 2 }

/-- The JSON-RPC error object of end-to-end scenario 4. -/
def boomError : Json := .obj [("code", .num (-32000)), ("message", .str "boom")]

/-- The error envelope of end-to-end scenario 4. -/
def boomEnvelope : Json := .obj [("id", .num 2), ("error", boomError)]

/-- C4: on a single fresh invocation of the callback listener (class slot
still `None`): a request whose query string carries a `code` parameter is
answered 200 and `authenticate` receives exactly that code; a request
without one is answered 400 and `authenticate` fails with the
authorization-denied error, returning no code. -/
theorem callback_listener_contract (query : String) :
    (∀ c, queryParam query "code" = some c →
      (do_GET none query).httpStatus = 200 ∧
      (awaitAuthorizationCode none query).2 = .ok c) ∧
    (queryParam query "code" = none →
      (do_GET none query).httpStatus = 400 ∧
      (awaitAuthorizationCode none query).2 = .error .authorizationDenied) := by
  constructor
  · intro c hc
    have hcne : c ≠ "" := queryParam_code_ne_empty query c hc
    simp [do_GET, awaitAuthorizationCode, hc, hcne]
  · intro hc
    simp [do_GET, awaitAuthorizationCode, hc]

/-- C4 witness: a redirect `?code=abc123` yields 200 and the code
`abc123`; a redirect `?error=access_denied` yields 400 and the denial
error. -/
theorem callback_listener_contract_witness :
    (do_GET none "code=abc123").httpStatus = 200 ∧
    (awaitAuthorizationCode none "code=abc123").2 = .ok "abc123" ∧
    (do_GET none "error=access_denied").httpStatus = 400 ∧
    (awaitAuthorizationCode none "error=access_denied").2 = .error .authorizationDenied := by
  have h1 := (callback_listener_contract "code=abc123").1 "abc123" (by decide)
  have h2 := (callback_listener_contract "error=access_denied").2 (by decide)
  exact ⟨h1.1, h1.2, h2.1, h2.2⟩

/-- C7: the captured code lives in the class-level slot and is never
cleared, so if a first flow captured a nonempty code, a second flow whose
single redirect lacks a `code` parameter responds 400 yet still observes
the stale code and succeeds with it instead of failing. -/
theorem stale_code_cross_invocation (firstCode : String) (query : String)
    (hne : firstCode ≠ "") (hq : queryParam query "code" = none) :
    (do_GET (some firstCode) query).httpStatus = 400 ∧
    (do_GET (some firstCode) query).slot = some firstCode ∧
    (awaitAuthorizationCode (some firstCode) query).2 = .ok firstCode := by
  simp [do_GET, awaitAuthorizationCode, hq, hne]

/-- C7 witness: with `abc123` captured by a first run, a second run whose
redirect is `?error=access_denied` succeeds with the stale `abc123`. -/
theorem stale_code_cross_invocation_witness :
    (do_GET (some "abc123") "error=access_denied").httpStatus = 400 ∧
    (do_GET (some "abc123") "error=access_denied").slot = some "abc123" ∧
    (awaitAuthorizationCode (some "abc123") "error=access_denied").2 = .ok "abc123" :=
  stale_code_cross_invocation "abc123" "error=access_denied" (by decide) (by decide)

/-- C2: with a 200 token-endpoint response whose JSON body lacks
`access_token` (here only `expires_in`), the code does not fail: it stores
`token_data.get("access_token")`, i.e. `None`, and proceeds — there is no
`TokenResponseMalformed` failure path in the source. -/
theorem token_missing_access_token_proceeds :
    (Json.obj [("expires_in", .num 600)]).getObjVal "access_token" = none ∧
    tokenExchangeStep demoAuthed { status := 200, body := .obj [("expires_in", .num 600)] }
      = .ok { demoAuthed with access_token := none } := by
  exact ⟨rfl, rfl⟩

/-- C1 counterexample: `call_tool` at `next_id = 2` receiving the
scenario-4 error envelope `{"id":2,"error":{"code":-32000,"message":"boom"}}`
does fail with the protocol error, but `next_id` stays 2 — the claim's
"next_id still advances to 3" is false, because the source raises on the
`error` key before `self.session_id += 1` runs. -/
theorem call_tool_error_envelope_keeps_id :
    (callToolRespond demoAtId2 { status := 200, body := boomEnvelope }).1
      = .error (.rpcProtocolError boomError) ∧
    (callToolRespond demoAtId2 { status := 200, body := boomEnvelope }).2.session_id = 2 ∧
    (callToolRespond demoAtId2 { status := 200, body := boomEnvelope }).2.session_id ≠ 3 := by
  refine ⟨rfl, rfl, by decide⟩

/-- C1 amended: `next_id` is attached to the outbound envelope at call
time for all three operations, and is incremented by exactly one only
after a successful response; a protocol-level error (a 200 body with a
top-level `error` key) fails with the protocol error and leaves the whole
state — `next_id` included — unchanged, so the scenario-4 invoke at id 2
ends with `next_id` still 2. -/
theorem rpc_next_id_discipline (st : ClientState) (tool_name : String)
    (arguments : Json) (resp : HttpResponse) (e : Json) :
    ((initializeEnvelope st).getObjVal "id" = some (.num st.session_id) ∧
     (discoverEnvelope st).getObjVal "id" = some (.num st.session_id) ∧
     (callToolEnvelope st tool_name arguments).getObjVal "id" = some (.num st.session_id)) ∧
    (resp.status = 200 → resp.body.getObjVal "error" = some e →
      initializeRespond st resp = (.error (.rpcProtocolError e), st) ∧
      discoverRespond st resp = (.error (.rpcProtocolError e), st) ∧
      callToolRespond st resp = (.error (.rpcProtocolError e), st)) ∧
    (∀ v, (initializeRespond st resp).1 = .ok v →
      (initializeRespond st resp).2.session_id = st.session_id + 1) ∧
    (∀ v, (discoverRespond st resp).1 = .ok v →
      (discoverRespond st resp).2.session_id = st.session_id + 1) ∧
    (∀ v, (callToolRespond st resp).1 = .ok v →
      (callToolRespond st resp).2.session_id = st.session_id + 1) := by
  refine ⟨⟨rfl, rfl, rfl⟩, ?_, ?_, ?_, ?_⟩
  · intro h200 herr
    have hec := errorCheck_protocol resp.body e herr
    refine ⟨?_, ?_, ?_⟩ <;>
      simp [initializeRespond, discoverRespond, callToolRespond, h200, hec]
  · intro v hv
    rw [(initializeRespond_ok_inv st resp v hv).2]
  · intro v hv
    rw [discoverRespond_ok_inv st resp v hv]
  · intro v hv
    rw [callToolRespond_ok_inv st resp v hv]

/-- C1 witness: the amended discipline applied to the scenario-4 error
envelope — `call_tool` fails with the protocol error and returns the
state, counter included, unchanged. -/
theorem rpc_next_id_discipline_witness :
    callToolRespond demoAtId2 { status := 200, body := boomEnvelope }
      = (.error (.rpcProtocolError boomError), demoAtId2) :=
  ((rpc_next_id_discipline demoAtId2 "search" (.obj []) { status := 200, body := boomEnvelope }
      boomError).2.1 rfl rfl).2.2

/-- C5: a fresh client starts with `next_id = 0`, and on a transport
failure (any non-2xx status) every operation fails with the transport
error and returns the state unchanged — in particular the counter is
untouched. -/
theorem next_id_starts_zero_transport_frame (env : Env) (st : ClientState)
    (resp : HttpResponse) (h : resp.status < 200 ∨ 300 ≤ resp.status) :
    (clientInit env).session_id = 0 ∧
    initializeRespond st resp = (.error (.transportError resp.status resp.body), st) ∧
    discoverRespond st resp = (.error (.transportError resp.status resp.body), st) ∧
    callToolRespond st resp = (.error (.transportError resp.status resp.body), st) := by
  have hne : resp.status ≠ 200 := by omega
  refine ⟨rfl, ?_, ?_, ?_⟩ <;>
    simp [initializeRespond, discoverRespond, callToolRespond, hne]

/-- C5 witness: a fresh client from the demo environment has counter 0,
and a 500 response leaves a mid-session state unchanged. -/
theorem next_id_starts_zero_transport_frame_witness :
    (clientInit demoEnv).session_id = 0 ∧
    discoverRespond demoAtId2 { status := 500, body := .str "oops" }
      = (.error (.transportError 500 (.str "oops")), demoAtId2) := by
  have h := next_id_starts_zero_transport_frame demoEnv demoAtId2
    { status := 500, body := .str "oops" } (Or.inr (by decide))
  exact ⟨h.1, h.2.2.1⟩

/-- A 201 response body with a `result` and no `error` key. -/
def okOnlyBody : Json := .obj [("result", .obj [("ok", .bool true)])]

/-- A 200 body whose `result.serverInfo` is a number, not an object. -/
def serverInfoNumBody : Json := .obj [("result", .obj [("serverInfo", .num 42)])]

/-- A 200 `tools/list` body whose single tool entry is an empty object. -/
def emptyToolBody : Json := .obj [("result", .obj [("tools", .arr [.obj []])])]

/-- C3 counterexample: three concrete refutations of the claim's success
direction.  A 2xx response (status 201) with no `error` key fails with the
transport error, because the source checks `status_code != 200`; a 200
body whose `result.serverInfo` is the number 42 crashes initialize with
AttributeError (`.get` on a non-dict, chat.py:215) instead of succeeding;
and a 200 body whose tools list is `[{}]` crashes discover's print loop at
`tool["name"]` (chat.py:261) instead of succeeding — so "any 2xx response
whose body has no error key succeeds with the result field" is false. -/
theorem transport_claim_counterexamples :
    (okOnlyBody.hasKey "error" = false ∧
     callToolRespond demoAtId2 { status := 201, body := okOnlyBody }
       = (.error (.transportError 201 okOnlyBody), demoAtId2)) ∧
    (serverInfoNumBody.hasKey "error" = false ∧
     initializeRespond demoAuthed { status := 200, body := serverInfoNumBody }
       = (.error (.attributeError "get"), demoAuthed)) ∧
    (emptyToolBody.hasKey "error" = false ∧
     (discoverRespond demoAtId2 { status := 200, body := emptyToolBody }).1
       = .error (.lookupError "name")) := by
  exact ⟨⟨rfl, rfl⟩, ⟨rfl, rfl⟩, ⟨rfl, rfl⟩⟩

/-- C3 amended: the failure direction of the transport contract, with 200
in place of 2xx — any non-200 status fails with `TransportError{status,
body}`; a 200 response with a top-level `error` key fails with
`RpcProtocolError`; a status ≥ 300 or an error-keyed body never yields a
successful result; and a 200 response that passes the error check
succeeds only when its post-processing completes — initialize with the
full parsed body once the serverInfo print block survives, invoke with the
`result` field once its lookup succeeds, and discover with the tools list
once both lookups and the tools print loop succeed. -/
theorem transport_contract (st : ClientState) (resp : HttpResponse) (e : Json) :
    (resp.status ≠ 200 →
      initializeRespond st resp = (.error (.transportError resp.status resp.body), st) ∧
      discoverRespond st resp = (.error (.transportError resp.status resp.body), st) ∧
      callToolRespond st resp = (.error (.transportError resp.status resp.body), st)) ∧
    (resp.status = 200 → resp.body.getObjVal "error" = some e →
      initializeRespond st resp = (.error (.rpcProtocolError e), st) ∧
      discoverRespond st resp = (.error (.rpcProtocolError e), st) ∧
      callToolRespond st resp = (.error (.rpcProtocolError e), st)) ∧
    (resp.status = 200 → errorCheck resp.body = none →
      (serverInfoBlock resp.body = none →
        initializeRespond st resp
          = (.ok resp.body, { st with session_id := st.session_id + 1 })) ∧
      (∀ r, resp.body.pySubscript "result" = .ok r →
        callToolRespond st resp
          = (.ok r, { st with session_id := st.session_id + 1 })) ∧
      (∀ r ts, resp.body.pySubscript "result" = .ok r → r.pySubscript "tools" = .ok ts →
        printToolsBlock ts = none →
        discoverRespond st resp
          = (.ok ts, { st with tools := ts, session_id := st.session_id + 1 }))) ∧
    (300 ≤ resp.status ∨ resp.body.hasKey "error" = true →
      (∀ v, (initializeRespond st resp).1 ≠ .ok v) ∧
      (∀ v, (discoverRespond st resp).1 ≠ .ok v) ∧
      (∀ v, (callToolRespond st resp).1 ≠ .ok v)) := by
  refine ⟨?_, ?_, ?_, ?_⟩
  · intro hne
    refine ⟨?_, ?_, ?_⟩ <;>
      simp [initializeRespond, discoverRespond, callToolRespond, hne]
  · intro h200 herr
    have hec := errorCheck_protocol resp.body e herr
    refine ⟨?_, ?_, ?_⟩ <;>
      simp [initializeRespond, discoverRespond, callToolRespond, h200, hec]
  · intro h200 hec
    refine ⟨?_, ?_, ?_⟩
    · intro hsb
      simp [initializeRespond, h200, hec, hsb]
    · intro r hr
      simp [callToolRespond, h200, hec, hr]
    · intro r ts hr hts hpb
      simp [discoverRespond, h200, hec, hr, hts, hpb]
  · intro hbad
    by_cases h200 : resp.status = 200
    · have hkey : ∃ w, resp.body.getObjVal "error" = some w := by
        rcases hbad with hge | hkey
        · omega
        · rw [Json.hasKey] at hkey
          exact Option.isSome_iff_exists.mp hkey
      obtain ⟨w, hw⟩ := hkey
      have hec := errorCheck_protocol resp.body w hw
      refine ⟨?_, ?_, ?_⟩ <;> intro v <;>
        simp [initializeRespond, discoverRespond, callToolRespond, h200, hec]
    · refine ⟨?_, ?_, ?_⟩ <;> intro v <;>
        simp [initializeRespond, discoverRespond, callToolRespond, h200]

/-- The scenario-3 capability list: one tool named `search`. -/
def searchTools : Json :=
  .arr [.obj [("name", .str "search"), ("description", .str "find documents"),
              ("inputSchema", .obj [])]]

/-- A second, different capability list. -/
def reportTools : Json :=
  .arr [.obj [("name", .str "report"), ("description", .str "build a report"),
              ("inputSchema", .obj [])]]

/-- A `tools/list` result envelope around a given tools list. -/
def toolsEnvelope (ts : Json) : Json :=
  .obj [("id", .num 1), ("result", .obj [("tools", ts)])]

/-- C3 witness: the amended contract applied concretely — a 404 gives the
transport error; a 200 body with an `error` key gives the protocol error;
a clean 200 `tools/list` body with a well-formed tools list succeeds with
that list and the incremented counter. -/
theorem transport_contract_witness :
    initializeRespond demoAuthed { status := 404, body := .str "not found" }
      = (.error (.transportError 404 (.str "not found")), demoAuthed) ∧
    discoverRespond demoAtId2 { status := 200, body := boomEnvelope }
      = (.error (.rpcProtocolError boomError), demoAtId2) ∧
    discoverRespond demoAuthed { status := 200, body := toolsEnvelope searchTools }
      = (.ok searchTools,
         { demoAuthed with tools := searchTools,
                           session_id := demoAuthed.session_id + 1 }) := by
  refine ⟨?_, ?_, ?_⟩
  · exact ((transport_contract demoAuthed { status := 404, body := .str "not found" }
      .null).1 (by decide)).1
  · exact ((transport_contract demoAtId2 { status := 200, body := boomEnvelope }
      boomError).2.1 rfl rfl).2.1
  · exact (((transport_contract demoAuthed { status := 200, body := toolsEnvelope searchTools }
      .null).2.2.1 rfl rfl).2.2 (.obj [("tools", searchTools)]) searchTools rfl rfl rfl)

/-- C6: a successful `discover_tools` stores the server's `tools` list
verbatim (hence in server order), and running it again on a second
response leaves exactly the second list — the assignment replaces the
registry wholesale, never merging with the first. -/
theorem discover_replaces_registry (st : ClientState) (resp1 resp2 : HttpResponse)
    (r1 r2 ts1 ts2 : Json)
    (h1s : resp1.status = 200) (h1e : resp1.body.getObjVal "error" = none)
    (h1r : resp1.body.getObjVal "result" = some r1) (h1t : r1.getObjVal "tools" = some ts1)
    (h2s : resp2.status = 200) (h2e : resp2.body.getObjVal "error" = none)
    (h2r : resp2.body.getObjVal "result" = some r2) (h2t : r2.getObjVal "tools" = some ts2) :
    (discoverRespond st resp1).2.tools = ts1 ∧
    (discoverRespond (discoverRespond st resp1).2 resp2).2.tools = ts2 := by
  have s1 := discoverRespond_success_state st resp1 r1 ts1 h1s h1e h1r h1t
  have s2 := discoverRespond_success_state (discoverRespond st resp1).2 resp2 r2 ts2
    h2s h2e h2r h2t
  constructor
  · rw [s1]
  · rw [s2]

/-- C6 witness: discovering `search` and then `report` leaves only
`report` visible. -/
theorem discover_replaces_registry_witness :
    (discoverRespond demoAuthed { status := 200, body := toolsEnvelope searchTools }).2.tools
      = searchTools ∧
    (discoverRespond
        (discoverRespond demoAuthed { status := 200, body := toolsEnvelope searchTools }).2
        { status := 200, body := toolsEnvelope reportTools }).2.tools
      = reportTools :=
  discover_replaces_registry demoAuthed
    { status := 200, body := toolsEnvelope searchTools }
    { status := 200, body := toolsEnvelope reportTools }
    (.obj [("tools", searchTools)]) (.obj [("tools", reportTools)])
    searchTools reportTools rfl rfl rfl rfl rfl rfl rfl rfl

/-- C8: with a string bearer token in hand, every outbound request posts
to the session endpoint (`base_url`) with exactly the JSON-RPC envelope
`{jsonrpc:"2.0", id: next_id, method, params}` — method/params being
`initialize`/`{protocolVersion}`, `tools/list`/`{}` or
`tools/call`/`{name, arguments}` — and exactly the four headers:
`Authorization: Bearer <token>`, `Content-Type: application/json`, the
fixed token-type header and the role header. -/
theorem outbound_request_shape (st : ClientState) (tok tool_name : String)
    (arguments : Json) (htok : st.access_token = some (.str tok)) :
    initializeRequest st =
      { url := st.base_url,
        headers := [("Authorization", "Bearer " ++ tok),
                    ("Content-Type", "application/json"),
                    ("X-Snowflake-Authorization-Token-Type", "OAUTH"),
                    ("X-Snowflake-Role", st.role)],
        body := .obj [("jsonrpc", .str "2.0"),
                      ("id", .num st.session_id),
                      ("method", .str "initialize"),
                      ("params", .obj [("protocolVersion", .str "2025-06-18")])] } ∧
    discoverRequest st =
      { url := st.base_url,
        headers := [("Authorization", "Bearer " ++ tok),
                    ("Content-Type", "application/json"),
                    ("X-Snowflake-Authorization-Token-Type", "OAUTH"),
                    ("X-Snowflake-Role", st.role)],
        body := .obj [("jsonrpc", .str "2.0"),
                      ("id", .num st.session_id),
                      ("method", .str "tools/list"),
                      ("params", .obj [])] } ∧
    callToolRequest st tool_name arguments =
      { url := st.base_url,
        headers := [("Authorization", "Bearer " ++ tok),
                    ("Content-Type", "application/json"),
                    ("X-Snowflake-Authorization-Token-Type", "OAUTH"),
                    ("X-Snowflake-Role", st.role)],
        body := .obj [("jsonrpc", .str "2.0"),
                      ("id", .num st.session_id),
                      ("method", .str "tools/call"),
                      ("params", .obj [("name", .str tool_name),
                                       ("arguments", arguments)])] } := by
  refine ⟨?_, ?_, ?_⟩ <;>
    simp [initializeRequest, discoverRequest, callToolRequest, requestHeaders,
      initializeEnvelope, discoverEnvelope, callToolEnvelope, htok, pyOptStr, Json.pyStr]

/-- C8 witness: the `tools/call` request of the authenticated demo client
for capability `search`. -/
theorem outbound_request_shape_witness :
    callToolRequest demoAuthed "search" (.obj [("query", .str "q")]) =
      { url := demoAuthed.base_url,
        headers := [("Authorization", "Bearer " ++ "tok123"),
                    ("Content-Type", "application/json"),
                    ("X-Snowflake-Authorization-Token-Type", "OAUTH"),
                    ("X-Snowflake-Role", demoAuthed.role)],
        body := .obj [("jsonrpc", .str "2.0"),
                      ("id", .num demoAuthed.session_id),
                      ("method", .str "tools/call"),
                      ("params", .obj [("name", .str "search"),
                                       ("arguments", .obj [("query", .str "q")])])] } :=
  (outbound_request_shape demoAuthed "tok123" "search" (.obj [("query", .str "q")]) rfl).2.2

/-- The scenario-2 initialize response body, serverInfo included. -/
def scenario2Body : Json :=
  .obj [("id", .num 0),
        ("result", .obj [("serverInfo",
          .obj [("name", .str "X"), ("version", .str "1")])])]

/-- C9: a successful `initialize` call — one that returns rather than
raising — returns the full parsed body and changes nothing in the session
state but the counter: the new state is exactly the old one with
`session_id + 1`, so endpoint, token, role, registry and the computed
headers are untouched; any `serverInfo` in the response only drives the
prints of chat.py:212-221, never a store. -/
theorem initialize_frame_effect (st : ClientState) (resp : HttpResponse) (v : Json)
    (hok : (initializeRespond st resp).1 = .ok v) :
    v = resp.body ∧
    (initializeRespond st resp).2 = { st with session_id := st.session_id + 1 } ∧
    (initializeRespond st resp).2.base_url = st.base_url ∧
    (initializeRespond st resp).2.access_token = st.access_token ∧
    (initializeRespond st resp).2.tools = st.tools ∧
    requestHeaders (initializeRespond st resp).2 = requestHeaders st ∧
    (initializeRespond st resp).2.session_id = st.session_id + 1 := by
  obtain ⟨hv, hstate⟩ := initializeRespond_ok_inv st resp v hok
  refine ⟨hv, hstate, ?_, ?_, ?_, ?_, ?_⟩ <;>
    simp [hstate, requestHeaders]

/-- C9 witness: the scenario-2 initialize response, `serverInfo` included,
returns and leaves the demo state unchanged except for the counter moving
0 → 1. -/
theorem initialize_frame_effect_witness :
    (initializeRespond demoAuthed { status := 200, body := scenario2Body }).2
      = { demoAuthed with session_id := demoAuthed.session_id + 1 } :=
  (initialize_frame_effect demoAuthed { status := 200, body := scenario2Body }
    scenario2Body rfl).2.1

/-- C10: on a clean 200 response (no `error` key) whose body lacks a
`result` object, or whose `result` lacks a `tools` key, `discover_tools`
aborts with the unhandled lookup error — not a transport error, not a
protocol error, not a success — and returns the state unchanged, so both
the counter and the previous registry survive. -/
theorem discover_unguarded_lookup (st : ClientState) (resp : HttpResponse)
    (h200 : resp.status = 200) (herr : resp.body.getObjVal "error" = none)
    (hmiss : resp.body.getObjVal "result" = none ∨
      ∃ r, resp.body.getObjVal "result" = some r ∧ r.getObjVal "tools" = none) :
    (∃ k, (discoverRespond st resp).1 = .error (.lookupError k)) ∧
    (∀ s b, (discoverRespond st resp).1 ≠ .error (.transportError s b)) ∧
    (∀ e, (discoverRespond st resp).1 ≠ .error (.rpcProtocolError e)) ∧
    (∀ v, (discoverRespond st resp).1 ≠ .ok v) ∧
    (discoverRespond st resp).2 = st := by
  have hkey : ∃ k, discoverRespond st resp = (.error (.lookupError k), st) := by
    rcases errorCheck_cases resp.body herr with hec | hec
    · rcases hmiss with hres | ⟨r, hres, hts⟩
      · exact ⟨"result", by simp [discoverRespond, h200, hec, pySubscript_none _ _ hres]⟩
      · exact ⟨"tools", by
          simp [discoverRespond, h200, hec, pySubscript_some _ _ _ hres,
            pySubscript_none _ _ hts]⟩
    · exact ⟨"error", by simp [discoverRespond, h200, hec]⟩
  obtain ⟨k, hk⟩ := hkey
  rw [hk]
  exact ⟨⟨k, rfl⟩, by simp, by simp, by simp, rfl⟩

/-- C10 witness: a 200 body holding only an id — no `result` at all —
makes discover abort with the lookup error and leaves the mid-session demo
state (registry and counter) intact. -/
theorem discover_unguarded_lookup_witness :
    (∃ k, (discoverRespond demoAtId2 { status := 200, body := .obj [("id", .num 1)] }).1
        = .error (.lookupError k)) ∧
    (discoverRespond demoAtId2 { status := 200, body := .obj [("id", .num 1)] }).2
        = demoAtId2 := by
  have h := discover_unguarded_lookup demoAtId2
    { status := 200, body := .obj [("id", .num 1)] } rfl rfl (Or.inl rfl)
  exact ⟨h.1, h.2.2.2.2⟩
